import Mathlib

/-!
Verification development for the videocr repository.

The pipeline orchestrator lives in `main_gui.py` (`SubtitleApp`): admission
(`start_processing`), the background Job Runner (`process_video_thread`) and
the consumer drain loop (`check_queue`).  The stage collaborators are
`extract_audio` (`audio_extractor.py`) and `transcribe_audio_with_whisper`
(`stt_processor.py`).

The embedding below is a shallow one: each collaborator call is modelled by
an environment field recording whether that call returns a value or raises an
exception (`Except String`), and the Python control flow (try / except /
finally, early `return`s) is translated into a pure function from that
environment to the ordered list of queue events plus the final state of the
intermediate artifact.
-/

namespace Videocr

/-! ### Character-list helpers (substring and prefix tests) -/

/-- Boolean test: `pat` occurs at the head of `l`. -/
def leadsChars : List Char → List Char → Bool
  | [], _ => true
  | _ :: _, [] => false
  | a :: as, b :: bs => a == b && leadsChars as bs

/-- Boolean test: `pat` occurs contiguously somewhere inside `l`. -/
def occursInChars (pat : List Char) : List Char → Bool
  | [] => pat.isEmpty
  | b :: bs => leadsChars pat (b :: bs) || occursInChars pat bs

/-- `mentions pat s` : the string `pat` occurs as a substring of `s`. -/
def mentions (pat s : String) : Bool := occursInChars pat.data s.data

/-! ### Python `os.path` operations (posixpath semantics)

`os.path.split` finds the last `/`; the head keeps a trailing slash only when
it is empty or consists solely of slashes.  `os.path.splitext` splits the
final component at its last dot, unless every character before that dot in
the final component is itself a dot.  `os.path.join a b` returns `b` when `b`
is absolute, otherwise concatenates with a separator unless `a` is empty or
already ends in one. -/

/-- `os.path.split` (posix): `(head, tail)` around the last slash. -/
def pySplitPath (p : String) : String × String :=
  let l := p.data
  let tail := (l.reverse.takeWhile fun c => !(c == '/')).reverse
  let head := (l.reverse.dropWhile fun c => !(c == '/')).reverse
  let head2 := if head.all fun c => c == '/' then head
               else (head.reverse.dropWhile fun c => c == '/').reverse
  (String.mk head2, String.mk tail)

/-- `os.path.dirname`. -/
def pyDirname (p : String) : String := (pySplitPath p).1

/-- `os.path.basename`. -/
def pyBasename (p : String) : String := (pySplitPath p).2

/-- `os.path.splitext` (posix): split off the extension at the last dot of
the final path component, unless only dots precede it there. -/
def pySplitext (p : String) : String × String :=
  let l := p.data
  let tail := (l.reverse.takeWhile fun c => !(c == '/')).reverse
  let head := (l.reverse.dropWhile fun c => !(c == '/')).reverse
  if tail.any fun c => c == '.' then
    let ext := (tail.reverse.takeWhile fun c => !(c == '.')).reverse
    let stemDot := (tail.reverse.dropWhile fun c => !(c == '.')).reverse
    let stem := stemDot.dropLast
    if stem.any fun c => !(c == '.') then
      (String.mk (head ++ stem), String.mk ('.' :: ext))
    else (p, "")
  else (p, "")

/-- `os.path.join` for two components (posix). -/
def pyJoin (a b : String) : String :=
  if b.data.head? = some '/' then b
  else if a = "" ∨ a.data.getLast? = some '/' then a ++ b
  else a ++ "/" ++ b

/-- Python `str.upper` (ASCII fragment, enough for the format strings). -/
def pyUpper (s : String) : String := String.mk (s.data.map Char.toUpper)

/-- Python truthiness of an optional string (`None` and `""` are falsy). -/
def pyTruthyStrOpt : Option String → Bool
  | none => false
  | some s => !(s == "")

/-! ### Events

`main_gui.py` communicates between the worker thread and the Tk thread with
dictionaries `{'type': ..., 'value': ...}` on `processing_queue`; the five
shapes used are status / progress / log / error / finish. -/

/-- A queue message of `SubtitleApp`. -/
inductive Event where
  | status (text : String)
  | progress (value : Nat)
  | log (text : String)
  | error (text : String)
  | finish (isError : Bool)
deriving DecidableEq, Repr

/-- Is this a `finish` message? -/
def isFinishEvent : Event → Bool
  | Event.finish _ => true
  | _ => false

/-- Is this an `error` message? -/
def isErrorEvent : Event → Bool
  | Event.error _ => true
  | _ => false

/-- The payload of a progress message. -/
def progressValue : Event → Option Nat
  | Event.progress v => some v
  | _ => none

/-- The textual payload of a message (empty for progress / finish). -/
def eventText : Event → String
  | Event.status s => s
  | Event.log s => s
  | Event.error s => s
  | _ => ""

/-! ### The Job Runner: `SubtitleApp.process_video_thread`

The environment records the outcome of every external call the thread makes:
`tempfile.NamedTemporaryFile` (returns the artifact path or raises),
`extract_audio` (returns a bool or raises), `transcribe_audio_with_whisper`
(returns a `(dict | None, str | None)` pair or raises — an exception here is
caught only by the outer catch-all), `generate_srt` / `generate_ass`
(returns a bool or raises) and `os.remove` during cleanup. -/

/-- Model of the `stt_result` dictionary: its Python truthiness and whether
the key `'language'` is present (with its value). -/
structure SttDict where
  truthy : Bool
  language : Option String
deriving DecidableEq, Repr

/-- Outcome of `os.remove(temp_wav_path)` in the cleanup block. -/
inductive RemoveOutcome where
  | removed
  | fileNotFound
  | osError (msg : String)
deriving DecidableEq, Repr

/-- Outcomes of every external call made by `process_video_thread`. -/
structure ThreadEnv where
  tmpResult : Except String String
  extractResult : Except String Bool
  sttResult : Except String (Option SttDict × Option String)
  genResult : Except String Bool
  removeResult : RemoveOutcome

/-- Python truthiness of the optional `stt_result` dictionary. -/
def pyTruthyDictOpt : Option SttDict → Bool
  | none => false
  | some d => d.truthy

/-- `err_val = error_msg or "STT process returned no result or an unknown error."`
followed by the f-string of line 287 of `main_gui.py`. -/
def sttFailMsg (errMsg : Option String) : String :=
  "Speech-to-text failed: " ++
    (if pyTruthyStrOpt errMsg then errMsg.getD ""
     else "STT process returned no result or an unknown error.")

/-- The output subtitle path computed at lines 295-297 of `main_gui.py`:
`os.path.join(os.path.dirname(v), splitext(basename(v))[0] + "." + fmt)`. -/
def outputSubtitlePath (videoPath outputFormat : String) : String :=
  let videoDir := pyDirname videoPath
  let base := (pySplitext (pyBasename videoPath)).1
  pyJoin videoDir (base ++ "." ++ outputFormat)

/-- What the `try` body of `process_video_thread` does before the `finally`
block: the emitted events, the `has_error` flag, the artifact path if the
temporary file was created, and which collaborators were invoked. -/
structure BodyOut where
  events : List Event
  hasError : Bool
  tmpCreated : Option String
  sttInvoked : Bool
  genInvoked : Bool
deriving Repr

/-- Events put on the queue before the temporary file is created
(lines 254-258). -/
def startEvents (videoPath languageName outputFormat : String) : List Event :=
  [Event.log ("Thread started. Video: " ++ pyBasename videoPath ++
      ", Lang: " ++ languageName ++ ", Format: " ++ outputFormat),
   Event.status "Extracting audio...",
   Event.progress 5]

/-- The `try` body of `process_video_thread` after the temporary file was
created at `p` (lines 265-323), translated clause by clause; every early
`return` becomes a branch result.  The three collaborator outcomes are the
remaining external inputs. -/
def bodyAfterTmp (videoPath languageName outputFormat p : String)
    (extractResult : Except String Bool)
    (sttResult : Except String (Option SttDict × Option String))
    (genResult : Except String Bool) : BodyOut :=
  let ev1 := startEvents videoPath languageName outputFormat ++
    [Event.log ("Temporary WAV path: " ++ p)]
  match extractResult with
  | Except.error e =>
      { events := ev1 ++ [Event.error ("Audio extraction failed: " ++ e)],
        hasError := true, tmpCreated := some p,
        sttInvoked := false, genInvoked := false }
  | Except.ok false =>
      { events := ev1 ++ [Event.error "Audio extraction failed. The function returned false. Check console for details from audio_extractor."],
        hasError := true, tmpCreated := some p,
        sttInvoked := false, genInvoked := false }
  | Except.ok true =>
    let ev2 := ev1 ++
      [Event.log "Audio extraction successful.",
       Event.progress 25,
       Event.status "Transcribing audio (model loading can take time)..."]
    match sttResult with
    | Except.error e =>
        { events := ev2 ++ [Event.error ("An unexpected error occurred in the processing thread: " ++ e)],
          hasError := true, tmpCreated := some p,
          sttInvoked := true, genInvoked := false }
    | Except.ok (res, errMsg) =>
      if pyTruthyStrOpt errMsg || !pyTruthyDictOpt res then
        { events := ev2 ++ [Event.error (sttFailMsg errMsg)],
          hasError := true, tmpCreated := some p,
          sttInvoked := true, genInvoked := false }
      else
        let langText := match res with
          | some d => d.language.getD "N/A"
          | none => "N/A"
        let outPath := outputSubtitlePath videoPath outputFormat
        let ev3 := ev2 ++
          [Event.log ("Transcription successful. Language detected: " ++ langText),
           Event.progress 75,
           Event.status ("Generating " ++ pyUpper outputFormat ++ " subtitles...")]
        if outputFormat == "srt" || outputFormat == "ass" then
          match genResult with
          | Except.error e =>
              { events := ev3 ++ [Event.error (pyUpper outputFormat ++ " subtitle generation failed: " ++ e)],
                hasError := true, tmpCreated := some p,
                sttInvoked := true, genInvoked := true }
          | Except.ok false =>
              { events := ev3 ++ [Event.error (pyUpper outputFormat ++ " subtitle generation returned false. Check logs for details from subtitle_generator.")],
                hasError := true, tmpCreated := some p,
                sttInvoked := true, genInvoked := true }
          | Except.ok true =>
              { events := ev3 ++
                  [Event.status ("Subtitles saved to: " ++ outPath),
                   Event.log ("Subtitles successfully generated: " ++ outPath),
                   Event.progress 100],
                hasError := false, tmpCreated := some p,
                sttInvoked := true, genInvoked := true }
        else
          { events := ev3 ++ [Event.error (pyUpper outputFormat ++ " subtitle generation returned false. Check logs for details from subtitle_generator.")],
            hasError := true, tmpCreated := some p,
            sttInvoked := true, genInvoked := false }

/-- The `try` body of `SubtitleApp.process_video_thread` (lines 253-329):
the start events, then either the caught tempfile-creation failure (the
inner `except` of line 275) or the rest of the pipeline. -/
def threadBody (videoPath languageName outputFormat : String)
    (tmpResult : Except String String)
    (extractResult : Except String Bool)
    (sttResult : Except String (Option SttDict × Option String))
    (genResult : Except String Bool) : BodyOut :=
  match tmpResult with
  | Except.error e =>
      { events := startEvents videoPath languageName outputFormat ++
          [Event.error ("Audio extraction failed: " ++ e)],
        hasError := true, tmpCreated := none,
        sttInvoked := false, genInvoked := false }
  | Except.ok p =>
      bodyAfterTmp videoPath languageName outputFormat p
        extractResult sttResult genResult

/-- The cleanup block of the `finally` clause (lines 331-341), run when the
temporary file was created at path `p`.  In this sequential model the
artifact exists whenever it was created (nothing else deletes it), so the
`os.path.exists` test succeeds and the 'already removed' log line of the
source is unreachable.  Returns the log events and whether the artifact
still exists afterwards. -/
def cleanupEvents (p : String) (rem : RemoveOutcome) : List Event × Bool :=
  match rem with
  | RemoveOutcome.removed =>
      ([Event.log ("Cleaned up temporary file: " ++ p)], false)
  | RemoveOutcome.fileNotFound =>
      ([Event.log ("Temporary file " ++ p ++ " not found during cleanup.")],
       false)
  | RemoveOutcome.osError e =>
      ([Event.log ("Warning: Could not delete temporary file " ++ p ++ ": " ++ e)],
       true)

/-- Observable result of one run of `process_video_thread`. -/
structure ThreadResult where
  events : List Event
  artifactExists : Bool
  sttInvoked : Bool
  genInvoked : Bool
deriving Repr

/-- `SubtitleApp.process_video_thread` (lines 250-344): body, then the
`finally` clause (cleanup when the temporary file was created, then the
unconditional `finish` message). -/
def processVideoThread (videoPath languageName outputFormat : String)
    (env : ThreadEnv) : ThreadResult :=
  let b := threadBody videoPath languageName outputFormat
    env.tmpResult env.extractResult env.sttResult env.genResult
  match b.tmpCreated with
  | none =>
      { events := b.events ++ [Event.finish b.hasError],
        artifactExists := false,
        sttInvoked := b.sttInvoked, genInvoked := b.genInvoked }
  | some p =>
      let c := cleanupEvents p env.removeResult
      { events := b.events ++ c.1 ++ [Event.finish b.hasError],
        artifactExists := c.2,
        sttInvoked := b.sttInvoked, genInvoked := b.genInvoked }

/-- Which stage fails first (1 extraction, 2 transcription, 3 synthesis),
read off the environment exactly along the control flow of the thread;
`none` when the whole run succeeds. -/
def failedStage (outputFormat : String) (env : ThreadEnv) : Option Nat :=
  match env.tmpResult with
  | Except.error _ => some 1
  | Except.ok _ =>
    match env.extractResult with
    | Except.error _ => some 1
    | Except.ok false => some 1
    | Except.ok true =>
      match env.sttResult with
      | Except.error _ => some 2
      | Except.ok (res, errMsg) =>
        if pyTruthyStrOpt errMsg || !pyTruthyDictOpt res then some 2
        else if outputFormat == "srt" || outputFormat == "ass" then
          match env.genResult with
          | Except.ok true => none
          | Except.ok false => some 3
          | Except.error _ => some 3
        else some 3

/-- Did the cleanup delete fail with an `OSError` (the only case that leaves
the artifact behind)? -/
def removeFailed (env : ThreadEnv) : Bool :=
  match env.removeResult with
  | RemoveOutcome.osError _ => true
  | _ => false

/-! ### Admission: `SubtitleApp.start_processing` (lines 166-202) -/

/-- Result of a submit attempt. -/
inductive Admission where
  | accepted
  | rejected (reason : String)
deriving DecidableEq, Repr

/-- The state `start_processing` reads: the chosen path, whether it exists
on disk, whether FFmpeg is available, and whether a processing thread is
currently alive. -/
structure FrontState where
  filePath : String
  pathOnDisk : Bool
  ffmpegOk : Bool
  jobActive : Bool
deriving Repr

/-- `SubtitleApp.start_processing`: the synchronous checks before the worker
thread is started.  The `jobActive` field is deliberately present in the
state because the source never consults it. -/
def startProcessing (s : FrontState) : Admission :=
  if s.filePath = "" then
    Admission.rejected "Please select a video file first."
  else if !s.pathOnDisk then
    Admission.rejected ("Video file not found: " ++ s.filePath)
  else if !s.ffmpegOk then
    Admission.rejected "FFmpeg is required. Please ensure it's installed and in PATH."
  else Admission.accepted

/-! ### The drain loop: `SubtitleApp.check_queue` (lines 204-247) -/

/-- The consumer-side state touched by `check_queue`. -/
structure GuiState where
  statusText : String
  progressBar : Nat
  logLines : List String
  uiEnabled : Bool
deriving Repr

/-- Dispatch of one non-terminal queue message (status / progress / log /
error branches of `check_queue`). -/
def dispatchNonFinish (s : GuiState) (e : Event) : GuiState :=
  match e with
  | Event.status v =>
      { s with statusText := "Status: " ++ v,
               logLines := s.logLines ++ ["Status update: " ++ v] }
  | Event.progress v => { s with progressBar := v }
  | Event.log v => { s with logLines := s.logLines ++ [v] }
  | Event.error v =>
      { s with statusText := "Status: Error occurred. Check logs.",
               logLines := s.logLines ++ ["ERROR: " ++ v] }
  | Event.finish _ => s

/-- Dispatch of a `finish` message (lines 223-234): status and log update,
forcing the bar to 100 on success, then re-enabling the UI. -/
def dispatchFinish (s : GuiState) (isErr : Bool) : GuiState :=
  let s1 :=
    if isErr then
      { s with statusText := "Status: Processing finished with errors. Check logs.",
               logLines := s.logLines ++ ["Operations finished, but errors were encountered."] }
    else
      let s0 :=
        { s with statusText := "Status: Processing finished successfully.",
                 logLines := s.logLines ++ ["All operations completed successfully."] }
      if s0.progressBar < 100 then { s0 with progressBar := 100 } else s0
  { s1 with uiEnabled := true }

/-- One invocation of `check_queue` over the currently queued messages:
drain until `finish` (then stop, without rescheduling) or until the queue is
empty; in the latter case reschedule iff the thread is alive, and otherwise
run the defensive dead-runner recovery (lines 240-247).  Returns the new
state and whether another poll was scheduled. -/
def checkQueue (pending : List Event) (threadAlive : Bool)
    (s : GuiState) : GuiState × Bool :=
  match pending with
  | [] =>
    if threadAlive then (s, true)
    else if !s.uiEnabled then
      ({ s with logLines := s.logLines ++ ["Process ended unexpectedly. Re-enabling UI."],
                statusText := "Status: Process ended. Check logs.",
                uiEnabled := true }, false)
    else (s, false)
  | Event.finish isErr :: _ => (dispatchFinish s isErr, false)
  | e :: rest => checkQueue rest threadAlive (dispatchNonFinish s e)

/-! ### Stage collaborator: `extract_audio` (`audio_extractor.py`) -/

/-- Outcomes of the external calls inside `extract_audio`:
`mp.VideoFileClip` either raises or yields a clip whose `audio` attribute is
present or `None` (the boolean), and `audio_clip.write_audiofile` either
raises or writes the file.  Exceptions raised while closing the clips are
caught and logged inside the `finally` block and cannot alter the result. -/
structure ExtractEnv where
  loadClip : Except String Bool
  writeAudio : Except String Unit

/-- `extract_audio` (lines 7-58 of `audio_extractor.py`): the `try` body as
it would propagate, then the `except` clauses, which convert any exception
into the return value `False`. -/
def extract_audio (env : ExtractEnv) : Except String Bool :=
  let body : Except String Bool :=
    match env.loadClip with
    | Except.error e => Except.error e
    | Except.ok hasAudio =>
      if hasAudio then
        match env.writeAudio with
        | Except.error e => Except.error e
        | Except.ok _ => Except.ok true
      else Except.ok false
  match body with
  | Except.error _ => Except.ok false
  | Except.ok b => Except.ok b

/-! ### Stage collaborator: language selection in `stt_processor.py` -/

/-- `WHISPER_LANGUAGE_MAPPING` of `stt_processor.py` (lines 10-33). -/
def WHISPER_LANGUAGE_MAPPING : List (String × String) :=
  [("English", "english"), ("Mandarin Chinese", "chinese"),
   ("Hindi", "hindi"), ("Spanish", "spanish"),
   ("Modern Standard Arabic", "arabic"), ("French", "french"),
   ("Portuguese (European)", "portuguese"),
   ("Portuguese (Brazilian)", "portuguese"), ("Russian", "russian"),
   ("Indonesian", "indonesian"), ("Urdu", "urdu"),
   ("Standard German", "german"), ("Japanese", "japanese"),
   ("Vietnamese", "vietnamese"), ("Turkish", "turkish"),
   ("Italian", "italian"), ("Korean", "korean"), ("Romanian", "romanian"),
   ("Greek", "greek"), ("Persian", "persian")]

/-- Python `dict.get` over an association list with pairwise distinct keys. -/
def dictGet (l : List (String × String)) (k : String) : Option String :=
  match l with
  | [] => none
  | (a, v) :: rest => if a = k then some v else dictGet rest k

/-- Lines 48-58 and 97 of `stt_processor.py`: the `language=` argument that
`transcribe_audio_with_whisper` passes to `model.transcribe` — `None` unless
the selector is truthy and a key of the map. -/
def whisperLanguageArg (language_name : String) : Option String :=
  if language_name == "" then none
  else dictGet WHISPER_LANGUAGE_MAPPING language_name

/-- Is this one of the four cleanup-outcome log lines of the `finally`
block (success, already absent, not found, or delete failure)? -/
def isCleanupLogEvent : Event → Bool
  | Event.log s =>
      mentions "Cleaned up temporary file:" s ||
      mentions "was already removed or not created" s ||
      mentions "not found during cleanup" s ||
      mentions "Could not delete temporary file" s
  | _ => false

/-- A run in which every collaborator call succeeds. -/
def envAllOk : ThreadEnv :=
  { tmpResult := Except.ok "/tmp/tmpaudio.wav",
    extractResult := Except.ok true,
    sttResult := Except.ok (some { truthy := true, language := some "en" }, none),
    genResult := Except.ok true,
    removeResult := RemoveOutcome.removed }

/-- A run whose source video has no audio track: `extract_audio` logs the
missing track on its own logger and returns `False` to the thread. -/
def envNoAudio : ThreadEnv :=
  { tmpResult := Except.ok "/tmp/tmpaudio.wav",
    extractResult := Except.ok false,
    sttResult := Except.ok (none, none),
    genResult := Except.ok true,
    removeResult := RemoveOutcome.removed }

/-- A run in which `tempfile.NamedTemporaryFile` itself raises, so
`temp_wav_path` is never assigned. -/
def envNoTemp : ThreadEnv :=
  { tmpResult := Except.error "No usable temporary directory found",
    extractResult := Except.ok true,
    sttResult := Except.ok (some { truthy := true, language := some "en" }, none),
    genResult := Except.ok true,
    removeResult := RemoveOutcome.removed }

/-- A stage-1 failure whose cleanup delete then raises `OSError`. -/
def envDeleteFails : ThreadEnv :=
  { tmpResult := Except.ok "/tmp/tmpaudio.wav",
    extractResult := Except.ok false,
    sttResult := Except.ok (none, none),
    genResult := Except.ok true,
    removeResult := RemoveOutcome.osError "Permission denied" }

/-! ## Theorems -/

/-- C2 counterexample: a submit issued while a job is already active is NOT
rejected — `start_processing` never consults the running thread, so with a
valid path and FFmpeg available it accepts and starts a second runner.  The
claimed `Rejected("job already active")` branch does not exist in the code. -/
theorem startProcessing_accepts_while_job_active :
    startProcessing { filePath := "/videos/talk.mp4", pathOnDisk := true,
                      ffmpegOk := true, jobActive := true } =
      Admission.accepted := by
  rfl

/-- C2 (amended): `start_processing` accepts exactly when a source path is
given, it exists on disk, and FFmpeg is available; an already-active job
plays no role in admission (concurrent submission is prevented only by the
UI disabling the button while a job runs). -/
theorem startProcessing_accepted_iff (s : FrontState) :
    startProcessing s = Admission.accepted ↔
      (s.filePath ≠ "" ∧ s.pathOnDisk = true ∧ s.ffmpegOk = true) := by
  obtain ⟨fp, pod, ff, ja⟩ := s
  by_cases h1 : fp = "" <;> cases pod <;> cases ff <;>
    simp [startProcessing, h1]

/-- C9: `extract_audio` is total over its error domain: every run returns a
boolean (no exception escapes the `except` clauses), and it returns `True`
exactly when the clip loaded with an audio track present and the WAV file
was written successfully. -/
theorem extract_audio_total (env : ExtractEnv) :
    (∃ b, extract_audio env = Except.ok b) ∧
      (extract_audio env = Except.ok true ↔
        (env.loadClip = Except.ok true ∧ env.writeAudio = Except.ok ())) := by
  obtain ⟨lc, wa⟩ := env
  rcases lc with e | ha
  · simp [extract_audio]
  · cases ha
    · simp [extract_audio]
    · rcases wa with e | u
      · simp [extract_audio]
      · simp [extract_audio]

/-- `dict.get` misses every key that is not in the key set. -/
theorem dictGet_eq_none {l : List (String × String)} {k : String}
    (h : k ∉ l.map Prod.fst) : dictGet l k = none := by
  induction l with
  | nil => rfl
  | cons a rest ih =>
    obtain ⟨a1, a2⟩ := a
    simp only [List.map_cons, List.mem_cons] at h
    push_neg at h
    show (if a1 = k then some a2 else dictGet rest k) = none
    rw [if_neg (fun hh => h.1 hh.symm), ih h.2]

/-- `dict.get` finds the stored value when the keys are pairwise distinct. -/
theorem dictGet_eq_some {l : List (String × String)} {k v : String}
    (hnd : (l.map Prod.fst).Nodup) (h : (k, v) ∈ l) :
    dictGet l k = some v := by
  induction l with
  | nil => simp at h
  | cons a rest ih =>
    obtain ⟨a1, a2⟩ := a
    simp only [List.map_cons, List.nodup_cons] at hnd
    rcases List.mem_cons.mp h with h1 | h1
    · rw [Prod.mk.injEq] at h1
      obtain ⟨rfl, rfl⟩ := h1
      show (if k = k then some v else dictGet rest k) = some v
      rw [if_pos rfl]
    · have hk : k ∈ rest.map Prod.fst := by
        simpa using List.mem_map_of_mem Prod.fst h1
      have hne : ¬ a1 = k := fun hh => hnd.1 (hh ▸ hk)
      show (if a1 = k then some a2 else dictGet rest k) = some v
      rw [if_neg hne, ih hnd.2 h1]

/-- C10: any selector that is not a key of `WHISPER_LANGUAGE_MAPPING`
(including the empty selector) makes `transcribe_audio_with_whisper` pass
`language=None` (auto-detection) to the recognizer, and a selector that is a
key is translated to its mapped Whisper language name. -/
theorem whisperLanguageArg_spec (s v : String) :
    (s ∉ WHISPER_LANGUAGE_MAPPING.map Prod.fst →
      whisperLanguageArg s = none) ∧
    ((s, v) ∈ WHISPER_LANGUAGE_MAPPING →
      whisperLanguageArg s = some v) := by
  constructor
  · intro h
    by_cases hs : s = ""
    · simp [whisperLanguageArg, hs]
    · simp only [whisperLanguageArg, beq_iff_eq, if_neg hs]
      exact dictGet_eq_none h
  · intro h
    have hk : s ∈ WHISPER_LANGUAGE_MAPPING.map Prod.fst := by
      simpa using List.mem_map_of_mem Prod.fst h
    have hne : ¬ s = "" := by
      intro hh
      rw [hh] at hk
      revert hk
      decide
    have hnd : (WHISPER_LANGUAGE_MAPPING.map Prod.fst).Nodup := by decide
    simp only [whisperLanguageArg, beq_iff_eq, if_neg hne]
    exact dictGet_eq_some hnd h

/-- Witness for C10 at concrete selectors: an unknown selector falls back to
auto-detection and a known one is translated. -/
theorem whisperLanguageArg_spec_witness :
    whisperLanguageArg "Klingon" = none ∧
      whisperLanguageArg "English" = some "english" :=
  ⟨(whisperLanguageArg_spec "Klingon" "x").1 (by decide),
   (whisperLanguageArg_spec "English" "english").2 (by decide)⟩

/-- Dispatching a non-terminal message never touches the UI-enabled flag:
only the `finish` branch and the dead-runner branch re-enable the UI. -/
theorem dispatchNonFinish_uiEnabled (s : GuiState) (e : Event) :
    (dispatchNonFinish s e).uiEnabled = s.uiEnabled := by
  cases e <;> rfl

/-- C8: if the Job Runner dies without ever emitting `finish`, the drain
loop drains whatever non-terminal messages are queued, detects the dead
thread, re-enables the UI (back to idle), surfaces the generic
"Process ended" status, logs the "ended unexpectedly" line, and stops
polling. -/
theorem checkQueue_dead_runner_recovery :
    ∀ (pending : List Event) (s : GuiState),
      (∀ e ∈ pending, isFinishEvent e = false) →
      s.uiEnabled = false →
      ((checkQueue pending false s).1.uiEnabled = true ∧
       (checkQueue pending false s).1.statusText =
         "Status: Process ended. Check logs." ∧
       "Process ended unexpectedly. Re-enabling UI." ∈
         (checkQueue pending false s).1.logLines ∧
       (checkQueue pending false s).2 = false) := by
  intro pending
  induction pending with
  | nil =>
    intro s hnf hui
    simp [checkQueue, hui]
  | cons e rest ih =>
    intro s hnf hui
    have hrest : ∀ x ∈ rest, isFinishEvent x = false :=
      fun x hx => hnf x (List.mem_cons_of_mem _ hx)
    have hui2 : (dispatchNonFinish s e).uiEnabled = false := by
      rw [dispatchNonFinish_uiEnabled, hui]
    have he := hnf e (List.mem_cons_self e rest)
    cases e with
    | finish b => simp [isFinishEvent] at he
    | status v => exact ih (dispatchNonFinish s (Event.status v)) hrest hui2
    | progress v => exact ih (dispatchNonFinish s (Event.progress v)) hrest hui2
    | log v => exact ih (dispatchNonFinish s (Event.log v)) hrest hui2
    | error v => exact ih (dispatchNonFinish s (Event.error v)) hrest hui2

/-- Witness for C8: a dead runner behind two queued non-terminal messages is
detected and the orchestrator is forced back to idle. -/
theorem checkQueue_dead_runner_recovery_witness :
    ((checkQueue [Event.log "Temporary WAV path: /tmp/x.wav", Event.progress 5]
        false { statusText := "Status: Starting...", progressBar := 0,
                logLines := [], uiEnabled := false }).1.uiEnabled = true ∧
     (checkQueue [Event.log "Temporary WAV path: /tmp/x.wav", Event.progress 5]
        false { statusText := "Status: Starting...", progressBar := 0,
                logLines := [], uiEnabled := false }).1.statusText =
       "Status: Process ended. Check logs." ∧
     "Process ended unexpectedly. Re-enabling UI." ∈
       (checkQueue [Event.log "Temporary WAV path: /tmp/x.wav", Event.progress 5]
          false { statusText := "Status: Starting...", progressBar := 0,
                  logLines := [], uiEnabled := false }).1.logLines ∧
     (checkQueue [Event.log "Temporary WAV path: /tmp/x.wav", Event.progress 5]
        false { statusText := "Status: Starting...", progressBar := 0,
                logLines := [], uiEnabled := false }).2 = false) :=
  checkQueue_dead_runner_recovery
    [Event.log "Temporary WAV path: /tmp/x.wav", Event.progress 5]
    { statusText := "Status: Starting...", progressBar := 0,
      logLines := [], uiEnabled := false }
    (by decide) rfl

/-- The cleanup block emits exactly one log line, whatever `os.remove` did. -/
theorem cleanupEvents_shape (p : String) (rem : RemoveOutcome) :
    ∃ s, (cleanupEvents p rem).1 = [Event.log s] := by
  cases rem <;> simp [cleanupEvents]

/-- C3: every run of `process_video_thread` — whichever collaborator calls
fail or raise — emits exactly one `finish` message, it is the last message
of the stream, and its error flag is set iff some stage failed. -/
theorem processVideoThread_exactly_one_finish (v l f : String)
    (env : ThreadEnv) :
    ((processVideoThread v l f env).events.countP isFinishEvent = 1) ∧
    ((processVideoThread v l f env).events.getLast? =
      some (Event.finish (failedStage f env).isSome)) := by
  obtain ⟨tmp, ext, stt, gen, rem⟩ := env
  rcases tmp with e1 | p
  · simp [processVideoThread, threadBody, bodyAfterTmp, startEvents, failedStage,
      List.countP_append, List.countP_cons, isFinishEvent]
  · rcases ext with e2 | b
    · cases rem <;>
        simp [processVideoThread, threadBody, bodyAfterTmp, startEvents, cleanupEvents, failedStage,
          List.countP_append, List.countP_cons, isFinishEvent]
    · cases b
      · cases rem <;>
          simp [processVideoThread, threadBody, bodyAfterTmp, startEvents, cleanupEvents, failedStage,
            List.countP_append, List.countP_cons, isFinishEvent]
      · rcases stt with e3 | ⟨res, errMsg⟩
        · cases rem <;>
            simp [processVideoThread, threadBody, bodyAfterTmp, startEvents, cleanupEvents, failedStage,
              List.countP_append, List.countP_cons, isFinishEvent]
        · cases hc : (pyTruthyStrOpt errMsg || !pyTruthyDictOpt res)
          · cases hf : (f == "srt" || f == "ass")
            · cases rem <;>
                simp [processVideoThread, threadBody, bodyAfterTmp, startEvents, cleanupEvents,
                  failedStage, List.countP_append, List.countP_cons,
                  isFinishEvent, hc, hf]
            · rcases gen with e4 | gb
              · cases rem <;>
                  simp [processVideoThread, threadBody, bodyAfterTmp, startEvents, cleanupEvents,
                    failedStage, List.countP_append, List.countP_cons,
                    isFinishEvent, hc, hf]
              · cases gb
                · cases rem <;>
                    simp [processVideoThread, threadBody, bodyAfterTmp, startEvents, cleanupEvents,
                      failedStage, List.countP_append, List.countP_cons,
                      isFinishEvent, hc, hf]
                · cases rem <;>
                    simp [processVideoThread, threadBody, bodyAfterTmp, startEvents, cleanupEvents,
                      failedStage, List.countP_append, List.countP_cons,
                      isFinishEvent, hc, hf]
          · cases rem <;>
              simp [processVideoThread, threadBody, bodyAfterTmp, startEvents, cleanupEvents,
                failedStage, List.countP_append, List.countP_cons,
                isFinishEvent, hc]

/-- C5: within one job the progress values put on the queue (5, 25, 75,
100 along the success path, a prefix of it otherwise) form a non-decreasing
sequence, and 100 is emitted only in a run that terminates with
`finish(is_error=False)`. -/
theorem progress_monotone_and_100_success (v l f : String)
    (env : ThreadEnv) :
    (List.Chain' (· ≤ ·)
      ((processVideoThread v l f env).events.filterMap progressValue)) ∧
    (100 ∈ (processVideoThread v l f env).events.filterMap progressValue →
      (processVideoThread v l f env).events.getLast? =
        some (Event.finish false)) := by
  obtain ⟨tmp, ext, stt, gen, rem⟩ := env
  rcases tmp with e1 | p
  · simp [processVideoThread, threadBody, bodyAfterTmp, startEvents, progressValue,
      List.filterMap_cons, List.filterMap_append]
  · rcases ext with e2 | b
    · cases rem <;>
        simp [processVideoThread, threadBody, bodyAfterTmp, startEvents, cleanupEvents, progressValue,
          List.filterMap_cons, List.filterMap_append]
    · cases b
      · cases rem <;>
          simp [processVideoThread, threadBody, bodyAfterTmp, startEvents, cleanupEvents, progressValue,
            List.filterMap_cons, List.filterMap_append]
      · rcases stt with e3 | ⟨res, errMsg⟩
        · cases rem <;>
            simp [processVideoThread, threadBody, bodyAfterTmp, startEvents, cleanupEvents, progressValue,
              List.filterMap_cons, List.filterMap_append]
        · cases hc : (pyTruthyStrOpt errMsg || !pyTruthyDictOpt res)
          · cases hf : (f == "srt" || f == "ass")
            · cases rem <;>
                simp [processVideoThread, threadBody, bodyAfterTmp, startEvents, cleanupEvents,
                  progressValue, List.filterMap_cons, List.filterMap_append,
                  hc, hf]
            · rcases gen with e4 | gb
              · cases rem <;>
                  simp [processVideoThread, threadBody, bodyAfterTmp, startEvents, cleanupEvents,
                    progressValue, List.filterMap_cons, List.filterMap_append,
                    hc, hf]
              · cases gb
                · cases rem <;>
                    simp [processVideoThread, threadBody, bodyAfterTmp, startEvents, cleanupEvents,
                      progressValue, List.filterMap_cons,
                      List.filterMap_append, hc, hf]
                · cases rem <;>
                    simp [processVideoThread, threadBody, bodyAfterTmp, startEvents, cleanupEvents,
                      progressValue, List.filterMap_cons,
                      List.filterMap_append, hc, hf]
          · cases rem <;>
              simp [processVideoThread, threadBody, bodyAfterTmp, startEvents, cleanupEvents,
                progressValue, List.filterMap_cons, List.filterMap_append, hc]

/-- Witness for C5: the all-success run emits 100 and ends with a
non-error `finish`. -/
theorem progress_monotone_and_100_success_witness :
    (processVideoThread "/videos/talk.mp4" "English" "srt" envAllOk).events.getLast? =
      some (Event.finish false) :=
  (progress_monotone_and_100_success "/videos/talk.mp4" "English" "srt"
    envAllOk).2 (by decide)

/-- C4 counterexample: when a stage fails AND the cleanup delete raises
`OSError`, the intermediate artifact still exists afterwards — the claim
"the intermediate audio artifact no longer exists afterward" does not hold
for every failing job, because a delete failure is logged and swallowed. -/
theorem stage_failure_artifact_can_persist :
    failedStage "srt" envDeleteFails = some 1 ∧
    (processVideoThread "/videos/talk.mp4" "English" "srt"
      envDeleteFails).artifactExists = true := by
  constructor <;> rfl

/-- C4 (amended): when stage `k` fails, no stage after `k` executes, exactly
one `error` and one terminal `finish(is_error=True)` message are emitted,
and — provided the cleanup delete does not itself fail with `OSError` — the
intermediate artifact no longer exists afterwards. -/
theorem stage_failure_aborts_and_cleans (v l f : String) (env : ThreadEnv)
    (k : Nat) (hk : failedStage f env = some k) :
    ((processVideoThread v l f env).events.countP isErrorEvent = 1) ∧
    ((processVideoThread v l f env).events.countP isFinishEvent = 1) ∧
    ((processVideoThread v l f env).events.getLast? =
      some (Event.finish true)) ∧
    (k = 1 → (processVideoThread v l f env).sttInvoked = false ∧
             (processVideoThread v l f env).genInvoked = false) ∧
    (k ≤ 2 → (processVideoThread v l f env).genInvoked = false) ∧
    (removeFailed env = false →
      (processVideoThread v l f env).artifactExists = false) := by
  obtain ⟨tmp, ext, stt, gen, rem⟩ := env
  rcases tmp with e1 | p
  · simp only [failedStage, Option.some.injEq] at hk
    subst hk
    simp [processVideoThread, threadBody, bodyAfterTmp, startEvents, removeFailed,
      isErrorEvent, isFinishEvent, List.countP_append, List.countP_cons]
  · rcases ext with e2 | b
    · simp only [failedStage, Option.some.injEq] at hk
      subst hk
      cases rem <;>
        simp [processVideoThread, threadBody, bodyAfterTmp, startEvents, cleanupEvents, removeFailed,
          isErrorEvent, isFinishEvent, List.countP_append, List.countP_cons]
    · cases b
      · simp only [failedStage, Option.some.injEq] at hk
        subst hk
        cases rem <;>
          simp [processVideoThread, threadBody, bodyAfterTmp, startEvents, cleanupEvents, removeFailed,
            isErrorEvent, isFinishEvent, List.countP_append, List.countP_cons]
      · rcases stt with e3 | ⟨res, errMsg⟩
        · simp only [failedStage, Option.some.injEq] at hk
          subst hk
          cases rem <;>
            simp [processVideoThread, threadBody, bodyAfterTmp, startEvents, cleanupEvents, removeFailed,
              isErrorEvent, isFinishEvent, List.countP_append,
              List.countP_cons]
        · cases hc : (pyTruthyStrOpt errMsg || !pyTruthyDictOpt res)
          · cases hf : (f == "srt" || f == "ass")
            · simp only [failedStage, hc, hf, Bool.false_eq_true, if_false,
                Option.some.injEq] at hk
              subst hk
              cases rem <;>
                simp [processVideoThread, threadBody, bodyAfterTmp, startEvents, cleanupEvents,
                  removeFailed, isErrorEvent, isFinishEvent,
                  List.countP_append, List.countP_cons, hc, hf]
            · rcases gen with e4 | gb
              · simp only [failedStage, hc, hf, Bool.false_eq_true, if_false,
                  if_true, Option.some.injEq] at hk
                subst hk
                cases rem <;>
                  simp [processVideoThread, threadBody, bodyAfterTmp, startEvents, cleanupEvents,
                    removeFailed, isErrorEvent, isFinishEvent,
                    List.countP_append, List.countP_cons, hc, hf]
              · cases gb
                · simp only [failedStage, hc, hf, Bool.false_eq_true,
                    if_false, if_true, Option.some.injEq] at hk
                  subst hk
                  cases rem <;>
                    simp [processVideoThread, threadBody, bodyAfterTmp, startEvents, cleanupEvents,
                      removeFailed, isErrorEvent, isFinishEvent,
                      List.countP_append, List.countP_cons, hc, hf]
                · simp [failedStage, hc, hf] at hk
          · simp only [failedStage, hc, if_true, Option.some.injEq] at hk
            subst hk
            cases rem <;>
              simp [processVideoThread, threadBody, bodyAfterTmp, startEvents, cleanupEvents,
                removeFailed, isErrorEvent, isFinishEvent,
                List.countP_append, List.countP_cons, hc]

/-- Witness for C4 (amended): the no-audio run fails at stage 1, emits one
error, skips transcription and synthesis, and its artifact is removed. -/
theorem stage_failure_aborts_and_cleans_witness :
    failedStage "srt" envNoAudio = some 1 ∧
    (processVideoThread "/videos/talk.mp4" "English" "srt"
      envNoAudio).events.countP isErrorEvent = 1 ∧
    (processVideoThread "/videos/talk.mp4" "English" "srt"
      envNoAudio).genInvoked = false ∧
    (processVideoThread "/videos/talk.mp4" "English" "srt"
      envNoAudio).artifactExists = false :=
  ⟨rfl,
   (stage_failure_aborts_and_cleans "/videos/talk.mp4" "English" "srt"
      envNoAudio 1 rfl).1,
   ((stage_failure_aborts_and_cleans "/videos/talk.mp4" "English" "srt"
      envNoAudio 1 rfl).2.2.2.1 rfl).2,
   (stage_failure_aborts_and_cleans "/videos/talk.mp4" "English" "srt"
      envNoAudio 1 rfl).2.2.2.2.2 rfl⟩

/-- Appending preserves the data lists. -/
theorem strData_append (a b : String) : (a ++ b).data = a.data ++ b.data :=
  rfl

/-- A pattern leads any list it is a prefix of. -/
theorem leadsChars_refl_append (pat t : List Char) :
    leadsChars pat (pat ++ t) = true := by
  induction pat with
  | nil => rfl
  | cons a as ih => simp [leadsChars, ih]

/-- Leading is stable under extending the scanned list on the right. -/
theorem leadsChars_append_of : ∀ (pat l t : List Char),
    leadsChars pat l = true → leadsChars pat (l ++ t) = true := by
  intro pat
  induction pat with
  | nil => intro l t h; rfl
  | cons a as ih =>
    intro l t h
    cases l with
    | nil => simp [leadsChars] at h
    | cons b bs =>
      simp only [leadsChars, Bool.and_eq_true, beq_iff_eq] at h
      simp only [List.cons_append, leadsChars, Bool.and_eq_true, beq_iff_eq]
      exact ⟨h.1, ih bs t h.2⟩

/-- A pattern that leads a list occurs in it. -/
theorem occursInChars_leads {pat l : List Char}
    (h : leadsChars pat l = true) : occursInChars pat l = true := by
  cases l with
  | nil =>
    cases pat with
    | nil => rfl
    | cons a as => simp [leadsChars] at h
  | cons b bs => simp [occursInChars, h]

/-- Occurrence is stable under prepending. -/
theorem occursInChars_append_right (a : List Char) {pat l : List Char}
    (h : occursInChars pat l = true) : occursInChars pat (a ++ l) = true := by
  induction a with
  | nil => simpa using h
  | cons c cs ih => simp [occursInChars, ih]

/-- Occurrence is stable under appending. -/
theorem occursInChars_append_left {pat a : List Char} (b : List Char)
    (h : occursInChars pat a = true) : occursInChars pat (a ++ b) = true := by
  induction a with
  | nil =>
    have hp : pat = [] := by
      simpa [occursInChars, List.isEmpty_iff] using h
    subst hp
    cases b with
    | nil => rfl
    | cons c cs => simp [occursInChars, leadsChars]
  | cons c cs ih =>
    simp only [occursInChars, Bool.or_eq_true] at h
    rcases h with h | h
    · simp only [List.cons_append, occursInChars, Bool.or_eq_true]
      exact Or.inl (leadsChars_append_of pat (c :: cs) b h)
    · simp only [List.cons_append, occursInChars, Bool.or_eq_true]
      exact Or.inr (ih h)

/-- A string that starts with the pattern mentions it. -/
theorem mentions_self_append (pat t : String) :
    mentions pat (pat ++ t) = true := by
  unfold mentions
  rw [strData_append]
  exact occursInChars_leads (leadsChars_refl_append pat.data t.data)

/-- `mentions` is stable under prepending. -/
theorem mentions_append_right (a : String) {pat b : String}
    (h : mentions pat b = true) : mentions pat (a ++ b) = true := by
  unfold mentions at h ⊢
  rw [strData_append]
  exact occursInChars_append_right a.data h

/-- `mentions` is stable under appending. -/
theorem mentions_append_left (b : String) {pat a : String}
    (h : mentions pat a = true) : mentions pat (a ++ b) = true := by
  unfold mentions at h ⊢
  rw [strData_append]
  exact occursInChars_append_left b.data h

/-- The cleanup block always emits exactly one log line, and whatever the
`os.remove` outcome was, that line is one of the cleanup-outcome messages. -/
theorem cleanupEvents_isCleanupLog (p : String) (rem : RemoveOutcome) :
    ∃ s, (cleanupEvents p rem).1 = [Event.log s] ∧
      isCleanupLogEvent (Event.log s) = true := by
  cases rem with
  | removed =>
    refine ⟨"Cleaned up temporary file: " ++ p, rfl, ?_⟩
    have hm : mentions "Cleaned up temporary file:"
        ("Cleaned up temporary file: " ++ p) = true :=
      mentions_self_append "Cleaned up temporary file:" (" " ++ p)
    simp [isCleanupLogEvent, hm]
  | fileNotFound =>
    refine ⟨"Temporary file " ++ p ++ " not found during cleanup.", rfl, ?_⟩
    have hm : mentions "not found during cleanup"
        ("Temporary file " ++ p ++ " not found during cleanup.") = true :=
      mentions_append_right ("Temporary file " ++ p) (by rfl)
    simp [isCleanupLogEvent, hm]
  | osError e =>
    refine ⟨"Warning: Could not delete temporary file " ++ p ++ ": " ++ e,
      rfl, ?_⟩
    have h0 : mentions "Could not delete temporary file"
        "Warning: Could not delete temporary file " = true := by rfl
    have hm : mentions "Could not delete temporary file"
        ("Warning: Could not delete temporary file " ++ p ++ ": " ++ e) = true :=
      mentions_append_left e (mentions_append_left ": "
        (mentions_append_left p h0))
    simp [isCleanupLogEvent, hm]

/-- C1 counterexample: on a no-audio-track source the thread emits SEVEN
messages, not the claimed five — an initial thread-start log, a status and a
`progress 5` precede the artifact-path log, and a cleanup log precedes the
finish — and no message of the run mentions the missing audio track: the
error text is the generic "returned false" message, because `extract_audio`
collapses the no-audio case into its boolean return value. -/
theorem noAudio_event_sequence_differs :
    ((processVideoThread "/videos/talk.mp4" "English" "srt" envNoAudio).events =
      [Event.log "Thread started. Video: talk.mp4, Lang: English, Format: srt",
       Event.status "Extracting audio...",
       Event.progress 5,
       Event.log "Temporary WAV path: /tmp/tmpaudio.wav",
       Event.error "Audio extraction failed. The function returned false. Check console for details from audio_extractor.",
       Event.log "Cleaned up temporary file: /tmp/tmpaudio.wav",
       Event.finish true]) ∧
    ((processVideoThread "/videos/talk.mp4" "English" "srt" envNoAudio).events.any
      (fun e => mentions "no audio track" (eventText e)) = false) := by
  constructor <;> rfl

/-- C1 (amended): whenever extraction reports failure by returning `False`
(as it does for a missing audio track), the event sequence is exactly
thread-start `log`, `status "Extracting audio..."`, `progress 5`,
`log` of the artifact path, the generic extraction-failure `error` (which
does not name the audio track), one cleanup-outcome `log`, then
`finish(True)`; the transcription and synthesis collaborators are never
invoked, and the artifact is gone afterwards provided the cleanup delete
did not itself fail with `OSError`. -/
theorem extractionFalse_event_sequence (v l f p : String) (env : ThreadEnv)
    (htmp : env.tmpResult = Except.ok p)
    (hext : env.extractResult = Except.ok false) :
    (∃ s,
      (processVideoThread v l f env).events =
        [Event.log ("Thread started. Video: " ++ pyBasename v ++ ", Lang: " ++
           l ++ ", Format: " ++ f),
         Event.status "Extracting audio...",
         Event.progress 5,
         Event.log ("Temporary WAV path: " ++ p),
         Event.error "Audio extraction failed. The function returned false. Check console for details from audio_extractor.",
         Event.log s,
         Event.finish true] ∧
      isCleanupLogEvent (Event.log s) = true) ∧
    (processVideoThread v l f env).sttInvoked = false ∧
    (processVideoThread v l f env).genInvoked = false ∧
    (removeFailed env = false →
      (processVideoThread v l f env).artifactExists = false) := by
  obtain ⟨s, hcl, hm⟩ := cleanupEvents_isCleanupLog p env.removeResult
  refine ⟨⟨s, ?_, hm⟩, ?_, ?_, ?_⟩
  · simp [processVideoThread, threadBody, bodyAfterTmp, startEvents,
      htmp, hext, hcl]
  · simp [processVideoThread, threadBody, bodyAfterTmp, startEvents,
      htmp, hext, hcl]
  · simp [processVideoThread, threadBody, bodyAfterTmp, startEvents,
      htmp, hext, hcl]
  · intro hrf
    cases hrm : env.removeResult with
    | removed =>
      simp [processVideoThread, threadBody, bodyAfterTmp, startEvents,
        cleanupEvents, htmp, hext, hrm]
    | fileNotFound =>
      simp [processVideoThread, threadBody, bodyAfterTmp, startEvents,
        cleanupEvents, htmp, hext, hrm]
    | osError m =>
      simp [removeFailed, hrm] at hrf

/-- Witness for C1 (amended) at the concrete no-audio run. -/
theorem extractionFalse_event_sequence_witness :
    (processVideoThread "/videos/talk.mp4" "English" "srt"
      envNoAudio).sttInvoked = false ∧
    (processVideoThread "/videos/talk.mp4" "English" "srt"
      envNoAudio).artifactExists = false :=
  ⟨(extractionFalse_event_sequence "/videos/talk.mp4" "English" "srt"
      "/tmp/tmpaudio.wav" envNoAudio rfl rfl).2.1,
   (extractionFalse_event_sequence "/videos/talk.mp4" "English" "srt"
      "/tmp/tmpaudio.wav" envNoAudio rfl rfl).2.2.2 rfl⟩

/-- Whenever the temporary file was created, every branch of the body
records its path. -/
theorem bodyAfterTmp_tmpCreated (v l f p : String)
    (ext : Except String Bool)
    (stt : Except String (Option SttDict × Option String))
    (gen : Except String Bool) :
    (bodyAfterTmp v l f p ext stt gen).tmpCreated = some p := by
  rcases ext with e | b
  · rfl
  · cases b
    · rfl
    · rcases stt with e | ⟨res, errMsg⟩
      · rfl
      · cases hc : (pyTruthyStrOpt errMsg || !pyTruthyDictOpt res)
        · cases hf : (f == "srt" || f == "ass")
          · simp [bodyAfterTmp, hc, hf]
          · rcases gen with e | gb
            · simp [bodyAfterTmp, hc, hf]
            · cases gb <;> simp [bodyAfterTmp, hc, hf]
        · simp [bodyAfterTmp, hc]

/-- C7 counterexample: when `tempfile.NamedTemporaryFile` itself raises,
`temp_wav_path` is never assigned, the `finally` block skips the cleanup
body entirely, and NO log line describing a cleanup outcome is emitted —
so "for every job ... a Log event describes the cleanup outcome" fails. -/
theorem no_cleanup_log_when_tmpfile_creation_fails :
    ((processVideoThread "/videos/talk.mp4" "English" "srt" envNoTemp).events.any
       isCleanupLogEvent = false) ∧
    ((processVideoThread "/videos/talk.mp4" "English" "srt" envNoTemp).events.getLast? =
       some (Event.finish true)) := by
  constructor <;> rfl

/-- C7 (amended): whenever the temporary artifact path was created, the
cleanup step runs regardless of which stage aborted: exactly one log line
describing the cleanup outcome is emitted just before `finish`, a
successful delete removes the artifact, and the `finish` error flag is the
same whatever the delete outcome is (a delete failure is logged, never
escalated). -/
theorem cleanup_always_runs_when_created (v l f p : String)
    (env : ThreadEnv) (htmp : env.tmpResult = Except.ok p) :
    (∃ s,
      (processVideoThread v l f env).events =
        (bodyAfterTmp v l f p env.extractResult env.sttResult
          env.genResult).events ++
          [Event.log s,
           Event.finish (bodyAfterTmp v l f p env.extractResult env.sttResult
             env.genResult).hasError] ∧
      isCleanupLogEvent (Event.log s) = true) ∧
    (env.removeResult = RemoveOutcome.removed →
      (processVideoThread v l f env).artifactExists = false) ∧
    (∀ rr : RemoveOutcome,
      (processVideoThread v l f
        { env with removeResult := rr }).events.getLast? =
        some (Event.finish (bodyAfterTmp v l f p env.extractResult
          env.sttResult env.genResult).hasError)) := by
  refine ⟨?_, ?_, ?_⟩
  · obtain ⟨s, hcl, hm⟩ := cleanupEvents_isCleanupLog p env.removeResult
    refine ⟨s, ?_, hm⟩
    simp [processVideoThread, threadBody, htmp, hcl, bodyAfterTmp_tmpCreated]
  · intro h
    simp [processVideoThread, threadBody, htmp, cleanupEvents, h,
      bodyAfterTmp_tmpCreated]
  · intro rr
    obtain ⟨s, hcl⟩ := cleanupEvents_shape p rr
    simp [processVideoThread, threadBody, htmp, hcl,
      bodyAfterTmp_tmpCreated]

/-- Witness for C7 (amended) at the all-success run. -/
theorem cleanup_always_runs_when_created_witness :
    (processVideoThread "/videos/talk.mp4" "English" "srt"
      envAllOk).artifactExists = false :=
  (cleanup_always_runs_when_created "/videos/talk.mp4" "English" "srt"
    "/tmp/tmpaudio.wav" envAllOk rfl).2.1 rfl

/-- Rebuilding a string from its data is the identity. -/
theorem strMk_data (s : String) : String.mk s.data = s := rfl

/-- Strings with the same data are equal. -/
theorem strExt {a b : String} (h : a.data = b.data) : a = b :=
  congrArg String.mk h

/-- `takeWhile` passes over a chunk whose members all satisfy `p`. -/
theorem takeWhile_append_of_all {p : Char → Bool} :
    ∀ {l : List Char} (r : List Char), (∀ x ∈ l, p x = true) →
      (l ++ r).takeWhile p = l ++ r.takeWhile p := by
  intro l
  induction l with
  | nil => intro r h; simp
  | cons a as ih =>
    intro r h
    have ha := h a (List.mem_cons_self a as)
    simp [List.takeWhile_cons, ha,
      ih r (fun x hx => h x (List.mem_cons_of_mem _ hx))]

/-- `dropWhile` skips a chunk whose members all satisfy `p`. -/
theorem dropWhile_append_of_all {p : Char → Bool} :
    ∀ {l : List Char} (r : List Char), (∀ x ∈ l, p x = true) →
      (l ++ r).dropWhile p = r.dropWhile p := by
  intro l
  induction l with
  | nil => intro r h; simp
  | cons a as ih =>
    intro r h
    have ha := h a (List.mem_cons_self a as)
    simp [List.dropWhile_cons, ha,
      ih r (fun x hx => h x (List.mem_cons_of_mem _ hx))]

/-- A list whose members all satisfy `p` is its own `takeWhile`. -/
theorem takeWhile_of_all {p : Char → Bool} {l : List Char}
    (h : ∀ x ∈ l, p x = true) : l.takeWhile p = l := by
  have := takeWhile_append_of_all (l := l) [] h
  simpa using this

/-- A list whose members all satisfy `p` has empty `dropWhile`. -/
theorem dropWhile_of_all {p : Char → Bool} {l : List Char}
    (h : ∀ x ∈ l, p x = true) : l.dropWhile p = [] := by
  have := dropWhile_append_of_all (l := l) [] h
  simpa using this

/-- Absence of `'/'` gives the character test used by the path splitters. -/
theorem all_notSlash {l : List Char} (h : '/' ∉ l) :
    ∀ x ∈ l, (!(x == '/')) = true := by
  intro x hx
  have hxne : ¬ x = '/' := fun hh => h (hh ▸ hx)
  simp [hxne]

/-- Absence of `'.'` gives the character test used by `splitext`. -/
theorem all_notDot {l : List Char} (h : '.' ∉ l) :
    ∀ x ∈ l, (!(x == '.')) = true := by
  intro x hx
  have hxne : ¬ x = '.' := fun hh => h (hh ▸ hx)
  simp [hxne]

/-- `os.path.split` on `d ++ "/" ++ t` with a clean directory part and a
slash-free final component returns `(d, t)`. -/
theorem pySplitPath_sep (d t : String) (hd0 : d.data ≠ [])
    (hd1 : d.data.getLast? ≠ some '/') (ht : '/' ∉ t.data) :
    pySplitPath (d ++ "/" ++ t) = (d, t) := by
  obtain ⟨c, rest, hrev⟩ : ∃ c rest, d.data.reverse = c :: rest := by
    cases hr : d.data.reverse with
    | nil => exact absurd (List.reverse_eq_nil_iff.mp hr) hd0
    | cons c rest => exact ⟨c, rest, rfl⟩
  have hcl : d.data.getLast? = some c := by
    rw [← List.head?_reverse, hrev]; rfl
  have hc : ¬ (c = '/') := fun hh => hd1 (by rw [hcl, hh])
  have hcb : (c == '/') = false := by simp [hc]
  have hd : d.data = (c :: rest).reverse := by
    rw [← hrev, List.reverse_reverse]
  have hdata : (d ++ "/" ++ t).data = d.data ++ '/' :: t.data := by
    rw [strData_append, strData_append]
    simp
  have hall : ∀ x ∈ t.data.reverse, (!(x == '/')) = true :=
    fun x hx => all_notSlash ht x (List.mem_reverse.mp hx)
  have hrev2 : (d.data ++ '/' :: t.data).reverse =
      t.data.reverse ++ '/' :: (c :: rest) := by
    rw [hd]
    simp
  have hcd : c ∈ d.data := by
    rw [hd]
    exact List.mem_reverse.mpr (List.mem_cons_self _ _)
  have hnall : ¬ ∀ x ∈ d.data, x = '/' := fun hallx => hc (hallx c hcd)
  simp only [pySplitPath, hdata, hrev2,
    takeWhile_append_of_all _ hall, dropWhile_append_of_all _ hall]
  simp [List.takeWhile_cons, List.dropWhile_cons, hcb, hc, Prod.ext_iff,
    ← hd, strMk_data, hnall, hrev]

/-- `os.path.splitext` on `b ++ "." ++ e` with a dot-free, slash-free,
nonempty stem and dot-free, slash-free extension splits at that dot. -/
theorem pySplitext_sep (b e : String) (hb0 : b.data ≠ [])
    (hb1 : '/' ∉ b.data) (hb2 : '.' ∉ b.data)
    (he1 : '/' ∉ e.data) (he2 : '.' ∉ e.data) :
    (pySplitext (b ++ "." ++ e)).1 = b := by
  obtain ⟨c, rest, hB⟩ : ∃ c rest, b.data = c :: rest := by
    cases hr : b.data with
    | nil => exact absurd hr hb0
    | cons c rest => exact ⟨c, rest, rfl⟩
  have hdata : (b ++ "." ++ e).data = b.data ++ '.' :: e.data := by
    rw [strData_append, strData_append]
    simp
  have hnosl : '/' ∉ b.data ++ '.' :: e.data := by
    intro hx
    rcases List.mem_append.mp hx with hx | hx
    · exact hb1 hx
    · rcases List.mem_cons.mp hx with hx | hx
      · exact absurd hx.symm (by decide)
      · exact he1 hx
  have hallsl : ∀ x ∈ (b.data ++ '.' :: e.data).reverse, (!(x == '/')) = true :=
    fun x hx => all_notSlash hnosl x (List.mem_reverse.mp hx)
  have hrev2 : (b.data ++ '.' :: e.data).reverse =
      e.data.reverse ++ '.' :: b.data.reverse := by
    simp
  have halldot : ∀ x ∈ e.data.reverse, (!(x == '.')) = true :=
    fun x hx => all_notDot he2 x (List.mem_reverse.mp hx)
  have hmemdot : ('.' :: e.data).any (fun c => c == '.') = true := by
    simp
  have hcdot : ¬ (c = '.') := by
    intro hh
    exact hb2 (by rw [hB, hh]; exact List.mem_cons_self _ _)
  have hany : (b.data ++ '.' :: e.data).any (fun c => c == '.') = true := by
    simp
  have hanyb : b.data.any (fun c => !(c == '.')) = true := by
    refine List.any_eq_true.mpr ⟨c, ?_, by simp [hcdot]⟩
    rw [hB]; exact List.mem_cons_self _ _
  simp only [pySplitext, hdata]
  rw [takeWhile_of_all hallsl, dropWhile_of_all hallsl, List.reverse_reverse]
  rw [if_pos hany, hrev2, takeWhile_append_of_all _ halldot,
    dropWhile_append_of_all _ halldot]
  simp only [List.takeWhile_cons, List.dropWhile_cons,
    show ((('.' : Char)) == '.') = true from rfl, Bool.not_true, if_false]
  simp [hanyb, strMk_data, List.dropLast_concat]

/-- `os.path.join` concatenates with a separator when the left part is a
clean nonempty directory and the right part is relative. -/
theorem pyJoin_sep (a x : String) (ha0 : a.data ≠ [])
    (ha1 : a.data.getLast? ≠ some '/') (hx : x.data.head? ≠ some '/') :
    pyJoin a x = a ++ "/" ++ x := by
  have ha : ¬ a = "" := by
    intro hh
    rw [hh] at ha0
    exact ha0 rfl
  unfold pyJoin
  rw [if_neg hx, if_neg (by
    intro hor
    rcases hor with hor | hor
    · exact ha hor
    · exact ha1 hor)]

/-- C6: the output subtitle path computed at stage 3 is the sibling of the
source with the extension replaced by the requested format: for any source
`d ++ "/" ++ b ++ "." ++ e` with clean components, the computed path is
`d ++ "/" ++ b ++ "." ++ fmt`. -/
theorem outputSubtitlePath_spec (d b e fmt : String)
    (hd0 : d.data ≠ []) (hd1 : d.data.getLast? ≠ some '/')
    (hb0 : b.data ≠ []) (hb1 : '/' ∉ b.data) (hb2 : '.' ∉ b.data)
    (he1 : '/' ∉ e.data) (he2 : '.' ∉ e.data) :
    outputSubtitlePath (d ++ "/" ++ b ++ "." ++ e) fmt =
      d ++ "/" ++ b ++ "." ++ fmt := by
  have ht : '/' ∉ (b ++ "." ++ e).data := by
    rw [strData_append, strData_append]
    intro hx
    rcases List.mem_append.mp hx with hx | hx
    · rcases List.mem_append.mp hx with hx | hx
      · exact hb1 hx
      · exact absurd (List.mem_singleton.mp hx) (by decide)
    · exact he1 hx
  have hassoc : d ++ "/" ++ b ++ "." ++ e = d ++ "/" ++ (b ++ "." ++ e) :=
    strExt (by simp [strData_append, List.append_assoc])
  have hdir : pyDirname (d ++ "/" ++ (b ++ "." ++ e)) = d := by
    unfold pyDirname
    rw [pySplitPath_sep d (b ++ "." ++ e) hd0 hd1 ht]
  have hbase : pyBasename (d ++ "/" ++ (b ++ "." ++ e)) = b ++ "." ++ e := by
    unfold pyBasename
    rw [pySplitPath_sep d (b ++ "." ++ e) hd0 hd1 ht]
  have hsplit : (pySplitext (b ++ "." ++ e)).1 = b :=
    pySplitext_sep b e hb0 hb1 hb2 he1 he2
  obtain ⟨c, rest, hB⟩ : ∃ c rest, b.data = c :: rest := by
    cases hr : b.data with
    | nil => exact absurd hr hb0
    | cons c rest => exact ⟨c, rest, rfl⟩
  have hchead : ((b ++ "." ++ fmt).data).head? = some c := by
    rw [strData_append, strData_append, hB]
    rfl
  have hhead : ((b ++ "." ++ fmt).data).head? ≠ some '/' := by
    rw [hchead]
    intro hh
    have hceq : c = '/' := Option.some.inj hh
    have hcin : c ∈ b.data := by
      rw [hB]; exact List.mem_cons_self _ _
    exact hb1 (hceq ▸ hcin)
  have hjoin : pyJoin d (b ++ "." ++ fmt) = d ++ "/" ++ (b ++ "." ++ fmt) :=
    pyJoin_sep d (b ++ "." ++ fmt) hd0 hd1 hhead
  rw [hassoc]
  show pyJoin (pyDirname (d ++ "/" ++ (b ++ "." ++ e)))
      ((pySplitext (pyBasename (d ++ "/" ++ (b ++ "." ++ e)))).1 ++
        "." ++ fmt) =
    d ++ "/" ++ b ++ "." ++ fmt
  rw [hdir, hbase, hsplit, hjoin]
  exact strExt (by simp [strData_append, List.append_assoc])

/-- Witness for C6 at the spec's own example: `talk.mp4` with format SRT
yields the sibling `talk.srt`. -/
theorem outputSubtitlePath_spec_witness :
    outputSubtitlePath ("/videos" ++ "/" ++ "talk" ++ "." ++ "mp4") "srt" =
      "/videos" ++ "/" ++ "talk" ++ "." ++ "srt" :=
  outputSubtitlePath_spec "/videos" "talk" "mp4" "srt"
    (by decide) (by decide) (by decide) (by decide) (by decide)
    (by decide) (by decide)

end Videocr
